import Mathlib

/-!
Shallow embedding of the incremental multi-source synchronization engine of the
`fountain` desktop application (Rust, `src-tauri/src`), covering:

* the per-platform sync state store (`config.rs` / `commands/sync.rs`:
  `SyncPlatformStatus`, `SyncState`, `update_platform_status`,
  `update_platform_success`, `update_platform_error`, `reset_stale_sync_state`);
* the Apple Books fingerprint-manifest change detection and batched push loop
  (`sync/apple_books.rs`: `run_sync`) and its caller
  (`commands/sync.rs`: `run_apple_books_sync`);
* the WeChat Read failure classification (`commands/sync.rs`:
  `run_wechat_read_sync`);
* the timestamp-threshold filters of the browser-bookmark and Bilibili adapters
  (`sync/browser_bookmarks.rs`: `run_sync`, `sync/bilibili.rs`:
  `fetch_folder_videos`);
* the scheduler's shutdown behaviour (`scheduler.rs`: `Scheduler::run`).

Modelling conventions, used throughout:

* Rust `f64` progress values are modelled as rationals (`ℚ`); the comparison
  tolerance `0.005` becomes `5/1000`.
* RFC3339 timestamp strings that the code immediately parses to `i64`
  (`parse_iso_to_timestamp`, `chrono::DateTime::parse_from_rfc3339`) are
  modelled as parsed values `Option Int`; `none` stands for an absent *or*
  unparseable timestamp, exactly the cases in which the code's
  `.and_then(parse)` chain yields `None`.
* `HashMap<String, _>` manifests are modelled as association lists whose
  lookup (`List.lookup`) returns the most recently inserted binding, matching
  `HashMap::insert`/`get` observational behaviour.
* Network pushes are effects; a run is parametrised by an oracle
  `pushOk : Nat → Bool` saying whether the push of batch `i` succeeds.
  Fallible calls return `Except String _` mirroring `anyhow::Result`.
* The effectful preamble of each adapter (credential lookup, SQLite/plist
  reads, the `setup` call) is not modelled; the run models start at the point
  where the fetched items are in hand, which is where every claim under
  verification applies.
-/

/-- `SyncPlatformStatus` from `config.rs`: per-platform sync status. -/
inductive SyncPlatformStatus where
  | Idle
  | Syncing
  | Success
  | Error
  | NeedsAuth
deriving DecidableEq, Repr

/-- `Platform` enum from `commands/sync.rs`. -/
inductive Platform where
  | AppleBooks
  | WechatRead
  | Bilibili
  | Kindle
  | SafariBookmarks
  | ChromeBookmarks
  | Douban
  | Zhihu
  | GithubStars
  | Twitter
deriving DecidableEq, Repr

/-- The persisted `SyncState` document, with the fields read and written by
`commands/sync.rs` (`update_platform_status` / `update_platform_success` /
`update_platform_error` / `reset_stale_sync_state`): per platform a status,
an optional last-sync timestamp, an optional last error and item counts
(Douban keeps two separate counts). -/
structure SyncState where
  apple_books_status : SyncPlatformStatus
  wechat_read_status : SyncPlatformStatus
  bilibili_status : SyncPlatformStatus
  kindle_status : SyncPlatformStatus
  safari_bookmarks_status : SyncPlatformStatus
  chrome_bookmarks_status : SyncPlatformStatus
  douban_status : SyncPlatformStatus
  zhihu_status : SyncPlatformStatus
  github_stars_status : SyncPlatformStatus
  twitter_status : SyncPlatformStatus
  apple_books_last_sync : Option String
  wechat_read_last_sync : Option String
  bilibili_last_sync : Option String
  kindle_last_sync : Option String
  safari_bookmarks_last_sync : Option String
  chrome_bookmarks_last_sync : Option String
  douban_last_sync : Option String
  zhihu_last_sync : Option String
  github_stars_last_sync : Option String
  twitter_last_sync : Option String
  apple_books_error : Option String
  wechat_read_error : Option String
  bilibili_error : Option String
  kindle_error : Option String
  safari_bookmarks_error : Option String
  chrome_bookmarks_error : Option String
  douban_error : Option String
  zhihu_error : Option String
  github_stars_error : Option String
  twitter_error : Option String
  apple_books_book_count : Nat
  wechat_read_book_count : Nat
  bilibili_video_count : Nat
  kindle_book_count : Nat
  safari_bookmarks_count : Nat
  chrome_bookmarks_count : Nat
  douban_book_count : Nat
  douban_movie_count : Nat
  zhihu_item_count : Nat
  github_stars_count : Nat
  twitter_tweet_count : Nat
deriving DecidableEq, Repr

/-- The `Default` instance for `SyncState` (`config.rs`): everything `Idle`,
no timestamps, no errors, zero counts. -/
def SyncState.init : SyncState where
  apple_books_status := .Idle
  wechat_read_status := .Idle
  bilibili_status := .Idle
  kindle_status := .Idle
  safari_bookmarks_status := .Idle
  chrome_bookmarks_status := .Idle
  douban_status := .Idle
  zhihu_status := .Idle
  github_stars_status := .Idle
  twitter_status := .Idle
  apple_books_last_sync := none
  wechat_read_last_sync := none
  bilibili_last_sync := none
  kindle_last_sync := none
  safari_bookmarks_last_sync := none
  chrome_bookmarks_last_sync := none
  douban_last_sync := none
  zhihu_last_sync := none
  github_stars_last_sync := none
  twitter_last_sync := none
  apple_books_error := none
  wechat_read_error := none
  bilibili_error := none
  kindle_error := none
  safari_bookmarks_error := none
  chrome_bookmarks_error := none
  douban_error := none
  zhihu_error := none
  github_stars_error := none
  twitter_error := none
  apple_books_book_count := 0
  wechat_read_book_count := 0
  bilibili_video_count := 0
  kindle_book_count := 0
  safari_bookmarks_count := 0
  chrome_bookmarks_count := 0
  douban_book_count := 0
  douban_movie_count := 0
  zhihu_item_count := 0
  github_stars_count := 0
  twitter_tweet_count := 0

/-- Per-platform status accessor (the field selected by the `match platform`
arms of `commands/sync.rs`). -/
def statusOf (s : SyncState) : Platform → SyncPlatformStatus
  | .AppleBooks => s.apple_books_status
  | .WechatRead => s.wechat_read_status
  | .Bilibili => s.bilibili_status
  | .Kindle => s.kindle_status
  | .SafariBookmarks => s.safari_bookmarks_status
  | .ChromeBookmarks => s.chrome_bookmarks_status
  | .Douban => s.douban_status
  | .Zhihu => s.zhihu_status
  | .GithubStars => s.github_stars_status
  | .Twitter => s.twitter_status

/-- Per-platform last-sync accessor. -/
def lastSyncOf (s : SyncState) : Platform → Option String
  | .AppleBooks => s.apple_books_last_sync
  | .WechatRead => s.wechat_read_last_sync
  | .Bilibili => s.bilibili_last_sync
  | .Kindle => s.kindle_last_sync
  | .SafariBookmarks => s.safari_bookmarks_last_sync
  | .ChromeBookmarks => s.chrome_bookmarks_last_sync
  | .Douban => s.douban_last_sync
  | .Zhihu => s.zhihu_last_sync
  | .GithubStars => s.github_stars_last_sync
  | .Twitter => s.twitter_last_sync

/-- Per-platform last-error accessor. -/
def errorOf (s : SyncState) : Platform → Option String
  | .AppleBooks => s.apple_books_error
  | .WechatRead => s.wechat_read_error
  | .Bilibili => s.bilibili_error
  | .Kindle => s.kindle_error
  | .SafariBookmarks => s.safari_bookmarks_error
  | .ChromeBookmarks => s.chrome_bookmarks_error
  | .Douban => s.douban_error
  | .Zhihu => s.zhihu_error
  | .GithubStars => s.github_stars_error
  | .Twitter => s.twitter_error

/-- Per-platform item-count accessor. Douban keeps a pair (books, movies);
every other platform's second component is constantly `0`. -/
def countsOf (s : SyncState) : Platform → Nat × Nat
  | .AppleBooks => (s.apple_books_book_count, 0)
  | .WechatRead => (s.wechat_read_book_count, 0)
  | .Bilibili => (s.bilibili_video_count, 0)
  | .Kindle => (s.kindle_book_count, 0)
  | .SafariBookmarks => (s.safari_bookmarks_count, 0)
  | .ChromeBookmarks => (s.chrome_bookmarks_count, 0)
  | .Douban => (s.douban_book_count, s.douban_movie_count)
  | .Zhihu => (s.zhihu_item_count, 0)
  | .GithubStars => (s.github_stars_count, 0)
  | .Twitter => (s.twitter_tweet_count, 0)

/-- `update_platform_status` (`commands/sync.rs` lines 726-753): set the given
platform's status field and nothing else, then persist. -/
def update_platform_status (s : SyncState) (p : Platform)
    (status : SyncPlatformStatus) : SyncState :=
  match p with
  | .AppleBooks => { s with apple_books_status := status }
  | .WechatRead => { s with wechat_read_status := status }
  | .Bilibili => { s with bilibili_status := status }
  | .Kindle => { s with kindle_status := status }
  | .SafariBookmarks => { s with safari_bookmarks_status := status }
  | .ChromeBookmarks => { s with chrome_bookmarks_status := status }
  | .Douban => { s with douban_status := status }
  | .Zhihu => { s with zhihu_status := status }
  | .GithubStars => { s with github_stars_status := status }
  | .Twitter => { s with twitter_status := status }

/-- `update_platform_success` (`commands/sync.rs` lines 755-832): set the
platform's status to `Success`, record `now` as the last-sync timestamp, store
the item count (Douban's counts are handled inline by its caller), and clear
the last error. -/
def update_platform_success (s : SyncState) (p : Platform) (count : Nat)
    (now : String) : SyncState :=
  match p with
  | .AppleBooks =>
      { s with apple_books_status := .Success, apple_books_last_sync := some now,
               apple_books_book_count := count, apple_books_error := none }
  | .WechatRead =>
      { s with wechat_read_status := .Success, wechat_read_last_sync := some now,
               wechat_read_book_count := count, wechat_read_error := none }
  | .Bilibili =>
      { s with bilibili_status := .Success, bilibili_last_sync := some now,
               bilibili_video_count := count, bilibili_error := none }
  | .Kindle =>
      { s with kindle_status := .Success, kindle_last_sync := some now,
               kindle_book_count := count, kindle_error := none }
  | .SafariBookmarks =>
      { s with safari_bookmarks_status := .Success,
               safari_bookmarks_last_sync := some now,
               safari_bookmarks_count := count, safari_bookmarks_error := none }
  | .ChromeBookmarks =>
      { s with chrome_bookmarks_status := .Success,
               chrome_bookmarks_last_sync := some now,
               chrome_bookmarks_count := count, chrome_bookmarks_error := none }
  | .Douban =>
      { s with douban_status := .Success, douban_last_sync := some now,
               douban_error := none }
  | .Zhihu =>
      { s with zhihu_status := .Success, zhihu_last_sync := some now,
               zhihu_item_count := count, zhihu_error := none }
  | .GithubStars =>
      { s with github_stars_status := .Success,
               github_stars_last_sync := some now,
               github_stars_count := count, github_stars_error := none }
  | .Twitter =>
      { s with twitter_status := .Success, twitter_last_sync := some now,
               twitter_tweet_count := count, twitter_error := none }

/-- `update_platform_error` (`commands/sync.rs` lines 895-951): set the
platform's status to `Error` and store the error text; nothing else changes. -/
def update_platform_error (s : SyncState) (p : Platform) (e : String) :
    SyncState :=
  match p with
  | .AppleBooks =>
      { s with apple_books_status := .Error, apple_books_error := some e }
  | .WechatRead =>
      { s with wechat_read_status := .Error, wechat_read_error := some e }
  | .Bilibili =>
      { s with bilibili_status := .Error, bilibili_error := some e }
  | .Kindle =>
      { s with kindle_status := .Error, kindle_error := some e }
  | .SafariBookmarks =>
      { s with safari_bookmarks_status := .Error,
               safari_bookmarks_error := some e }
  | .ChromeBookmarks =>
      { s with chrome_bookmarks_status := .Error,
               chrome_bookmarks_error := some e }
  | .Douban =>
      { s with douban_status := .Error, douban_error := some e }
  | .Zhihu =>
      { s with zhihu_status := .Error, zhihu_error := some e }
  | .GithubStars =>
      { s with github_stars_status := .Error, github_stars_error := some e }
  | .Twitter =>
      { s with twitter_status := .Error, twitter_error := some e }

/-- `reset_stale_sync_state` (`commands/sync.rs` lines 836-893): for every
platform, a `Syncing` status is replaced by `Idle`; every other status and
every other field is untouched. (The source performs ten sequential
per-field `if` statements on a loaded copy and persists it; each `if` only
touches its own status field, so the combined record update below is the same
transformation.) -/
def reset_stale_sync_state (s : SyncState) : SyncState :=
  { s with
    apple_books_status :=
      if s.apple_books_status = .Syncing then .Idle else s.apple_books_status,
    wechat_read_status :=
      if s.wechat_read_status = .Syncing then .Idle else s.wechat_read_status,
    bilibili_status :=
      if s.bilibili_status = .Syncing then .Idle else s.bilibili_status,
    kindle_status :=
      if s.kindle_status = .Syncing then .Idle else s.kindle_status,
    safari_bookmarks_status :=
      if s.safari_bookmarks_status = .Syncing then .Idle
      else s.safari_bookmarks_status,
    chrome_bookmarks_status :=
      if s.chrome_bookmarks_status = .Syncing then .Idle
      else s.chrome_bookmarks_status,
    douban_status :=
      if s.douban_status = .Syncing then .Idle else s.douban_status,
    zhihu_status :=
      if s.zhihu_status = .Syncing then .Idle else s.zhihu_status,
    github_stars_status :=
      if s.github_stars_status = .Syncing then .Idle else s.github_stars_status,
    twitter_status :=
      if s.twitter_status = .Syncing then .Idle else s.twitter_status }

/-- `BookManifestEntry` (`sync/apple_books.rs`): persisted per-book fingerprint
used to detect changes between syncs. `f64` progress is modelled as `ℚ`. -/
structure BookManifestEntry where
  annotation_count : Nat
  reading_progress : ℚ
deriving DecidableEq, Repr

/-- A book row read from the Apple Books library database. Only the fields
that participate in change detection and manifest updates are modelled
(`asset_id`, `reading_progress`); title/author/genre/cover only flow into the
pushed JSON payload. -/
structure Book where
  asset_id : String
  reading_progress : ℚ
deriving DecidableEq, Repr

/-- The persisted Apple Books `ChangeManifest`
(`HashMap<String, BookManifestEntry>`), as an association list; lookups see
the most recent insertion, matching `HashMap` observational behaviour. -/
abbrev Manifest : Type := List (String × BookManifestEntry)

/-- `HashMap::insert`: the new binding shadows any older one under `lookup`. -/
def manifestInsert (m : Manifest) (k : String) (v : BookManifestEntry) :
    Manifest :=
  (k, v) :: m

/-- The annotation list is modelled by the asset ids of its elements; an
annotation's other fields never feed into change detection or the manifest.
`annotCount annots asset` is `annots_by_asset.get(asset).map_or(0, |a| a.len())`
(`sync/apple_books.rs` lines 93-96 and 108-110). -/
def annotCount (annots : List String) (asset : String) : Nat :=
  (annots.filter (fun a => a = asset)).length

/-- `BATCH_SIZE` in `sync/apple_books.rs`. -/
def APPLE_BOOKS_BATCH_SIZE : Nat := 50

/-- The change predicate of `sync/apple_books.rs` lines 104-119: a book is
changed if it is absent from the manifest, or its stored annotation count
differs from the current one, or its stored reading progress differs from the
current one by more than `0.005`. -/
def bookChanged (manifest : Manifest) (annots : List String) (b : Book) :
    Bool :=
  let ac := annotCount annots b.asset_id
  match List.lookup b.asset_id manifest with
  | none => true
  | some entry =>
      entry.annotation_count ≠ ac ∨
        |entry.reading_progress - b.reading_progress| > (5 : ℚ) / 1000

/-- `slice::chunks`: split a list into consecutive chunks of size `n` (the
last chunk may be shorter). Structured with a fuel argument (the list length)
so that the definition computes by reduction; `chunksOf` is only ever applied
with `n > 0`, for which the fuel always suffices. -/
def chunksGo (n : Nat) : Nat → List α → List (List α)
  | 0, _ => []
  | _ + 1, [] => []
  | fuel + 1, l => l.take n :: chunksGo n fuel (l.drop n)

/-- `changed_books.chunks(BATCH_SIZE)` as a total function. -/
def chunksOf (n : Nat) (l : List α) : List (List α) :=
  chunksGo n l.length l

/-- One iteration of the manifest update after a successful batch push
(`sync/apple_books.rs` lines 161-173): every book of the chunk gets its
manifest entry overwritten with the current annotation count and progress. -/
def updateManifestForChunk (annots : List String) (m : Manifest)
    (chunk : List Book) : Manifest :=
  chunk.foldl
    (fun acc b =>
      manifestInsert acc b.asset_id
        ⟨annotCount annots b.asset_id, b.reading_progress⟩)
    m

/-- The batched push loop of `sync/apple_books.rs` lines 129-175. `pushOk i`
says whether the network push of batch `i` succeeds. Returns the list of
batches whose push was attempted (in order; the last one failed if the result
is an error) together with either `(total_synced, updated_manifest)` or the
error that aborted the loop — a failed batch makes the whole function return
early with `Err` via the `?` operator, so later batches are never attempted
and the in-memory updated manifest is discarded. -/
def pushBatches (pushOk : Nat → Bool) (annots : List String) :
    List (List Book) → Nat → Manifest → Nat →
      List (List Book) × Except String (Nat × Manifest)
  | [], _, manifest, total => ([], .ok (total, manifest))
  | chunk :: rest, i, manifest, total =>
      if pushOk i then
        let manifest' := updateManifestForChunk annots manifest chunk
        let out := pushBatches pushOk annots rest (i + 1) manifest'
          (total + chunk.length)
        (chunk :: out.1, out.2)
      else
        ([chunk], .error "ebook sync batch failed")

/-- `sync/apple_books.rs::run_sync`, from the point where the books and
annotations have been read and `setup` has succeeded: if there are no books,
or change detection yields no changed book, return `(0, manifest)` without
pushing; otherwise push the changed books in batches of `BATCH_SIZE`.
Also returns the attempted-batch trace from `pushBatches`. -/
def apple_books_run_sync (pushOk : Nat → Bool) (manifest : Manifest)
    (books : List Book) (annots : List String) :
    List (List Book) × Except String (Nat × Manifest) :=
  if books.isEmpty then ([], .ok (0, manifest))
  else
    let changed_books := books.filter (bookChanged manifest annots)
    if changed_books.isEmpty then ([], .ok (0, manifest))
    else
      pushBatches pushOk annots
        (chunksOf APPLE_BOOKS_BATCH_SIZE changed_books) 0 manifest 0

/-- `SyncResult` from `commands/sync.rs`. -/
structure SyncResult where
  platform : Platform
  success : Bool
  message : String
  items_synced : Nat
deriving DecidableEq, Repr

/-- `commands/sync.rs::run_apple_books_sync` (lines 133-179): mark the
platform `Syncing`, run the session, and on `Ok` persist the updated manifest
and record success (which also stamps `last_sync` with `now`); on `Err` leave
the persisted manifest as it was and record the error. Returns the new state,
the manifest as persisted after the run, and the `SyncResult`. -/
def run_apple_books_sync (pushOk : Nat → Bool) (state : SyncState)
    (persisted : Manifest) (books : List Book) (annots : List String)
    (now : String) : SyncState × Manifest × SyncResult :=
  let state1 := update_platform_status state .AppleBooks .Syncing
  match (apple_books_run_sync pushOk persisted books annots).2 with
  | .ok (count, updated_manifest) =>
      (update_platform_success state1 .AppleBooks count now,
       updated_manifest,
       { platform := .AppleBooks, success := true,
         message :=
           if count > 0 then "Synced " ++ toString count ++ " books"
           else "No changes detected",
         items_synced := count })
  | .error e =>
      (update_platform_error state1 .AppleBooks e,
       persisted,
       { platform := .AppleBooks, success := false, message := e,
         items_synced := 0 })

/-- Rust `str::contains(pat)`: `pat` occurs as a contiguous substring. -/
def strContains (s pat : String) : Bool :=
  decide (pat.toList <:+: s.toList)

/-- The WeChat Read auth-failure heuristic (`commands/sync.rs` line 236):
`msg.contains("401") || msg.contains("expired") || msg.contains("auth")`. -/
def wechat_needs_auth (msg : String) : Bool :=
  strContains msg "401" || strContains msg "expired" || strContains msg "auth"

/-- `commands/sync.rs::run_wechat_read_sync` (lines 213-264), parametrised by
the outcome of `sync::wechat_read::run_sync` (`Ok count` or `Err msg`): mark
`Syncing`; on success record it; on failure classify by
`wechat_needs_auth` — the auth branch calls `update_platform_status` with
`NeedsAuth` (which touches only the status field), the other branch calls
`update_platform_error`. -/
def run_wechat_read_sync (result : Except String Nat) (state : SyncState)
    (now : String) : SyncState × SyncResult :=
  let state1 := update_platform_status state .WechatRead .Syncing
  match result with
  | .ok count =>
      (update_platform_success state1 .WechatRead count now,
       { platform := .WechatRead, success := true,
         message := "Synced " ++ toString count ++ " books",
         items_synced := count })
  | .error msg =>
      if wechat_needs_auth msg then
        (update_platform_status state1 .WechatRead .NeedsAuth,
         { platform := .WechatRead, success := false, message := msg,
           items_synced := 0 })
      else
        (update_platform_error state1 .WechatRead msg,
         { platform := .WechatRead, success := false, message := msg,
           items_synced := 0 })

/-- A browser bookmark (`sync/browser_bookmarks.rs`). `added_at` is the
parsed timestamp; `none` covers both an absent `added_at` string and one
`parse_iso_to_timestamp` cannot parse. -/
structure Bookmark where
  url : String
  title : String
  added_at : Option Int
deriving DecidableEq, Repr

/-- The timestamp-threshold filter of `sync/browser_bookmarks.rs` lines
69-83: with no watermark keep everything; with watermark `threshold`, keep a
bookmark when its timestamp is strictly greater, or when it has no
(parseable) timestamp. -/
def bookmark_keep (last_sync_ts : Option Int) (bm : Bookmark) : Bool :=
  match last_sync_ts with
  | none => true
  | some threshold => (bm.added_at.map (fun ts => decide (ts > threshold))).getD true

/-- `BATCH_SIZE` in `sync/browser_bookmarks.rs`. -/
def BOOKMARKS_BATCH_SIZE : Nat := 100

/-- The bookmark push loop (`sync/browser_bookmarks.rs` lines 91-113):
sequential batches, abort on first failure via `?`. -/
def pushCountBatches (pushOk : Nat → Bool) :
    List (List α) → Nat → Nat → Except String Nat
  | [], _, total => .ok total
  | chunk :: rest, i, total =>
      if pushOk i then pushCountBatches pushOk rest (i + 1) (total + chunk.length)
      else .error "bookmark sync batch failed"

/-- `sync/browser_bookmarks.rs::run_sync` from the point where `setup` has
succeeded, parametrised by the outcome of the `bookmark_status` backend call
(note the `?` on line 55: a failed status call propagates and fails the whole
run) and by the bookmarks read from the browser. -/
def browser_run_sync (statusResult : Except String (Option Int))
    (bookmarks : List Bookmark) (pushOk : Nat → Bool) : Except String Nat :=
  match statusResult with
  | .error e => .error e
  | .ok last_sync_ts =>
      if bookmarks.isEmpty then .ok 0
      else
        let to_push := bookmarks.filter (bookmark_keep last_sync_ts)
        if to_push.isEmpty then .ok 0
        else pushCountBatches pushOk (chunksOf BOOKMARKS_BATCH_SIZE to_push) 0 0

/-- Rust `Result::unwrap_or`. -/
def exceptUnwrapOr (r : Except ε α) (d : α) : α :=
  match r with
  | .ok a => a
  | .error _ => d

/-- The Bilibili watermark (`sync/bilibili.rs` lines 81-85):
`api_client.video_status(..).await.unwrap_or(None)` — a failed status call is
swallowed and treated as no watermark. The RFC3339 parse is folded into the
modelled `Option Int` payload. -/
def bilibili_last_sync_ts (statusResult : Except String (Option Int)) :
    Option Int :=
  exceptUnwrapOr statusResult none

/-- One favorite-list media entry as used by the filter of
`sync/bilibili.rs::fetch_folder_videos` lines 201-215: `attr` (0 means
available; `as_i64().unwrap_or(0)` is folded into the `Int`) and the optional
`fav_time`. -/
structure BiliMedia where
  attr : Int
  fav_time : Option Int
deriving DecidableEq, Repr

/-- The timestamp part of the Bilibili filter (lines 209-213): with a
watermark `since`, keep when `fav_time > since` or `fav_time` is absent;
without a watermark keep everything. -/
def bili_timestamp_keep (since_ts : Option Int) (fav_time : Option Int) :
    Bool :=
  match since_ts with
  | none => true
  | some since => (fav_time.map (fun t => decide (t > since))).getD true

/-- The full Bilibili media filter (lines 203-215): entries with `attr ≠ 0`
(deleted/unavailable videos) are dropped unconditionally, then the timestamp
rule applies. -/
def bili_media_keep (since_ts : Option Int) (v : BiliMedia) : Bool :=
  if v.attr ≠ 0 then false
  else bili_timestamp_keep since_ts v.fav_time

/-- The platforms handled by `Scheduler::run` (`scheduler.rs`), in the order
the tick arm checks them. -/
def sched_platform_order : List Platform :=
  [.AppleBooks, .WechatRead, .Bilibili, .Kindle, .SafariBookmarks,
   .ChromeBookmarks]

/-- Where the scheduler loop (`scheduler.rs::Scheduler::run`) can be when the
shutdown signal is delivered:

* `loopHead` — suspended in `tokio::select!` (the only point at which the
  shutdown receiver is polled; the select is `biased`, so when both the
  shutdown future and the tick are ready, the shutdown branch wins);
* `inTick remaining` — executing the tick arm, with `remaining` the
  platforms whose run the arm has not yet completed (its head being the one
  whose `SyncSession` may currently be in flight). The arm contains no
  `select!` and never polls the shutdown receiver;
* `stopped` — the loop has exited via `break`.
-/
inductive SchedPhase where
  | loopHead
  | inTick (remaining : List Platform)
  | stopped
deriving DecidableEq, Repr

/-- The platform syncs that still run to completion after the shutdown signal
has been delivered, given the due/enabled oracle for the current tick.
From `loopHead`, the biased select takes the shutdown branch before the next
tick and the loop breaks at once, running nothing. From `inTick remaining`,
the arm — which never consults the shutdown receiver — still runs every
enabled-and-due platform left in it (including completing, never aborting,
the one in flight); only when the arm finishes and control returns to
`select!` is the signal observed and the loop broken. -/
def sources_started_after_shutdown (dueEnabled : Platform → Bool) :
    SchedPhase → List Platform
  | .stopped => []
  | .loopHead => []
  | .inTick remaining => remaining.filter dueEnabled

/-- C2: at startup (`reset_stale_sync_state`, run before the scheduler starts
in `lib.rs::run`), every platform whose persisted status is `Syncing` is reset
to `Idle`; a platform in any other status keeps it, and the last-sync
timestamps, error texts and item counts of every platform are unchanged. -/
theorem C2_reset_stale_syncing_to_idle (s : SyncState) (p : Platform) :
    statusOf (reset_stale_sync_state s) p =
      (if statusOf s p = .Syncing then .Idle else statusOf s p) ∧
    lastSyncOf (reset_stale_sync_state s) p = lastSyncOf s p ∧
    errorOf (reset_stale_sync_state s) p = errorOf s p ∧
    countsOf (reset_stale_sync_state s) p = countsOf s p := by
  cases p <;>
    simp [reset_stale_sync_state, statusOf, lastSyncOf, errorOf, countsOf]

/-- C10: `update_platform_error` mutates exactly the chosen platform's status
(to `Error`) and last-error fields, leaving that platform's last-sync
timestamp and item counts and every field of every other platform unchanged;
`update_platform_status` (the call used to record `NeedsAuth`) mutates exactly
the chosen platform's status field. -/
theorem C10_error_update_frame (s : SyncState) (p q : Platform) (e : String)
    (st : SyncPlatformStatus) :
    (statusOf (update_platform_error s p e) q =
      if q = p then .Error else statusOf s q) ∧
    (errorOf (update_platform_error s p e) q =
      if q = p then some e else errorOf s q) ∧
    lastSyncOf (update_platform_error s p e) q = lastSyncOf s q ∧
    countsOf (update_platform_error s p e) q = countsOf s q ∧
    (statusOf (update_platform_status s p st) q =
      if q = p then st else statusOf s q) ∧
    errorOf (update_platform_status s p st) q = errorOf s q ∧
    lastSyncOf (update_platform_status s p st) q = lastSyncOf s q ∧
    countsOf (update_platform_status s p st) q = countsOf s q := by
  cases p <;> cases q <;>
    simp [update_platform_error, update_platform_status, statusOf, errorOf,
      lastSyncOf, countsOf]

/-- C4: the timestamp-threshold filter. With no watermark the browser-bookmark
filter keeps every fetched item; with watermark `T` it keeps exactly the items
whose timestamp is strictly greater than `T` plus every item without a
timestamp. The timestamp rule of the Bilibili filter behaves identically on
each item. -/
theorem C4_timestamp_filter (bms : List Bookmark) (T : Int) (bm : Bookmark)
    (ft : Option Int) :
    (bms.filter (bookmark_keep none) = bms) ∧
    (bm ∈ bms.filter (bookmark_keep (some T)) ↔
      bm ∈ bms ∧
        (bm.added_at = none ∨ ∃ ts, bm.added_at = some ts ∧ T < ts)) ∧
    bili_timestamp_keep none ft = true ∧
    (bili_timestamp_keep (some T) ft = true ↔
      ft = none ∨ ∃ t, ft = some t ∧ T < t) := by
  refine ⟨?_, ?_, rfl, ?_⟩
  · simp [List.filter_eq_self, bookmark_keep]
  · rw [List.mem_filter]
    cases h : bm.added_at <;> simp [bookmark_keep, h]
  · cases ft <;> simp [bili_timestamp_keep]

/-- C5: the fingerprint-manifest diff marks a book changed iff it is absent
from the manifest or its stored fingerprint differs from the current one
(annotation count unequal, or reading progress differing by more than the
`0.005` tolerance); with an empty manifest every book is included. -/
theorem C5_fingerprint_diff_characterization (manifest : Manifest)
    (annots : List String) (books : List Book) (b : Book) :
    (b ∈ books.filter (bookChanged manifest annots) ↔
      b ∈ books ∧
        (List.lookup b.asset_id manifest = none ∨
          ∃ entry, List.lookup b.asset_id manifest = some entry ∧
            (entry.annotation_count ≠ annotCount annots b.asset_id ∨
              |entry.reading_progress - b.reading_progress| > (5 : ℚ) / 1000))) ∧
    books.filter (bookChanged [] annots) = books := by
  constructor
  · rw [List.mem_filter]
    cases h : List.lookup b.asset_id manifest <;> simp [bookChanged, h]
  · simp [List.filter_eq_self, bookChanged]

/-- C9: the fingerprint diff is order-independent — permuting the current item
list permutes the changed subset (hence yields the same set of items). -/
theorem C9_fingerprint_diff_perm_invariant (manifest : Manifest)
    (annots : List String) {l1 l2 : List Book} (h : l1.Perm l2) :
    (l1.filter (bookChanged manifest annots)).Perm
      (l2.filter (bookChanged manifest annots)) ∧
    ∀ b : Book, b ∈ l1.filter (bookChanged manifest annots) ↔
      b ∈ l2.filter (bookChanged manifest annots) :=
  ⟨h.filter _, fun _ => (h.filter _).mem_iff⟩

/-- Witness for C9 at a concrete two-element permutation. -/
theorem C9_fingerprint_diff_perm_invariant_witness :
    (([⟨"a", 0⟩, ⟨"b", 1⟩] : List Book)).Perm [⟨"b", 1⟩, ⟨"a", 0⟩] ∧
    (([⟨"a", 0⟩, ⟨"b", 1⟩] : List Book).filter (bookChanged [] [])).Perm
      (([⟨"b", 1⟩, ⟨"a", 0⟩] : List Book).filter (bookChanged [] [])) := by
  have h : (([⟨"a", 0⟩, ⟨"b", 1⟩] : List Book)).Perm [⟨"b", 1⟩, ⟨"a", 0⟩] :=
    List.Perm.swap _ _ _
  exact ⟨h, (C9_fingerprint_diff_perm_invariant [] [] h).1⟩

/-- C7 counterexample: the claim says that after the cancellation signal is
delivered the loop "starts no further source's sync before exiting". But the
tick arm never polls the shutdown receiver: if the signal arrives while the
arm still has Safari and Chrome bookmarks left to process (both enabled and
due), both syncs still start and run before the loop exits at the next
`select!`. -/
theorem C7_counterexample :
    sources_started_after_shutdown (fun _ => true)
        (.inTick [.SafariBookmarks, .ChromeBookmarks]) =
      [Platform.SafariBookmarks, Platform.ChromeBookmarks] ∧
    sources_started_after_shutdown (fun _ => true)
        (.inTick [.SafariBookmarks, .ChromeBookmarks]) ≠ [] := by
  exact ⟨rfl, by decide⟩

/-- C7 amended: cancellation is observed only at the `select!` between ticks.
When the loop is at the select point (or already stopped), the shutdown branch
— `biased`, hence polled before the tick — wins and no further source starts;
when the signal arrives during a tick's arm, exactly the enabled-and-due
platforms remaining in that arm still run to completion (no in-flight session
is aborted), and the loop exits before any subsequent tick. -/
theorem C7_shutdown_checked_between_ticks (dueEnabled : Platform → Bool)
    (rem : List Platform) :
    sources_started_after_shutdown dueEnabled .loopHead = [] ∧
    sources_started_after_shutdown dueEnabled .stopped = [] ∧
    sources_started_after_shutdown dueEnabled (.inTick rem) =
      rem.filter dueEnabled :=
  ⟨rfl, rfl, rfl⟩

/-- C6 counterexample: the claim says every sync run tolerates a failed
`Status` call and proceeds as if there were no watermark. The browser-bookmark
adapter instead propagates the failure with `?`
(`sync/browser_bookmarks.rs` line 55): with one bookmark fetched and every
push succeeding, the run returns the status error instead of pushing it. -/
theorem C6_counterexample :
    browser_run_sync (.error "status request failed")
        [⟨"https://example.com", "t", none⟩] (fun _ => true) =
      .error "status request failed" ∧
    ∀ n, browser_run_sync (.error "status request failed")
        [⟨"https://example.com", "t", none⟩] (fun _ => true) ≠ .ok n := by
  refine ⟨rfl, fun n h => ?_⟩
  simp [browser_run_sync] at h

/-- C6 amended: the Bilibili adapter tolerates a failed `Status` call
(`unwrap_or(None)`) and proceeds with no watermark, so its timestamp rule
keeps every item and the filter reduces to the availability check alone;
the browser-bookmark adapter instead propagates the failure and the whole run
fails. -/
theorem C6_status_failure_split (e : String) (bms : List Bookmark)
    (pushOk : Nat → Bool) (v : BiliMedia) :
    browser_run_sync (.error e) bms pushOk = .error e ∧
    bilibili_last_sync_ts (.error e) = none ∧
    bili_timestamp_keep none v.fav_time = true ∧
    bili_media_keep none v = decide (v.attr = 0) := by
  refine ⟨rfl, rfl, rfl, ?_⟩
  by_cases h : v.attr = 0 <;> simp [bili_media_keep, bili_timestamp_keep, h]

/-- C3 counterexample: the claim says an auth-classified failure sets the
source's `last_error` to the error text. The auth branch of
`run_wechat_read_sync` calls `update_platform_status(.., NeedsAuth)`, which
touches only the status field: starting from the default state, after a run
failing with "HTTP 401 Unauthorized" the status is `NeedsAuth` but
`wechat_read_error` is still `none`, not the error text. -/
theorem C3_counterexample :
    wechat_needs_auth "HTTP 401 Unauthorized" = true ∧
    (run_wechat_read_sync (.error "HTTP 401 Unauthorized") SyncState.init
        "now").1.wechat_read_status = .NeedsAuth ∧
    (run_wechat_read_sync (.error "HTTP 401 Unauthorized") SyncState.init
        "now").1.wechat_read_error = none := by
  refine ⟨by decide, by decide, by decide⟩

/-- C3 amended: a WeChat Read run failing with an error text matching the
auth heuristic (`401`/`expired`/`auth` substring) sets the platform status to
`NeedsAuth` and reports a failed outcome carrying the error text, but leaves
`last_error` — and every other field of every platform — unchanged. -/
theorem C3_auth_failure_needsauth (s : SyncState) (msg now : String)
    (h : wechat_needs_auth msg = true) :
    statusOf (run_wechat_read_sync (.error msg) s now).1 .WechatRead =
      .NeedsAuth ∧
    errorOf (run_wechat_read_sync (.error msg) s now).1 .WechatRead =
      errorOf s .WechatRead ∧
    (run_wechat_read_sync (.error msg) s now).2.success = false ∧
    (run_wechat_read_sync (.error msg) s now).2.message = msg ∧
    (run_wechat_read_sync (.error msg) s now).2.items_synced = 0 ∧
    (∀ q, q ≠ .WechatRead →
      statusOf (run_wechat_read_sync (.error msg) s now).1 q = statusOf s q) ∧
    (∀ q, errorOf (run_wechat_read_sync (.error msg) s now).1 q =
      errorOf s q) ∧
    (∀ q, lastSyncOf (run_wechat_read_sync (.error msg) s now).1 q =
      lastSyncOf s q) ∧
    (∀ q, countsOf (run_wechat_read_sync (.error msg) s now).1 q =
      countsOf s q) := by
  have hrw : run_wechat_read_sync (.error msg) s now =
      (update_platform_status (update_platform_status s .WechatRead .Syncing)
        .WechatRead .NeedsAuth,
       { platform := .WechatRead, success := false, message := msg,
         items_synced := 0 }) := by
    simp [run_wechat_read_sync, h]
  rw [hrw]
  refine ⟨rfl, rfl, rfl, rfl, rfl, ?_, ?_, ?_, ?_⟩ <;>
    · intro q
      cases q <;>
        simp [update_platform_status, statusOf, errorOf, lastSyncOf, countsOf]

/-- Witness for C3's amended theorem at a concrete auth-flavoured error. -/
theorem C3_auth_failure_needsauth_witness :
    wechat_needs_auth "cookie expired" = true ∧
    statusOf (run_wechat_read_sync (.error "cookie expired") SyncState.init
        "now").1 .WechatRead = .NeedsAuth :=
  ⟨by decide,
   (C3_auth_failure_needsauth SyncState.init "cookie expired" "now"
      (by decide)).1⟩

/-- C8: when change detection yields no changed book, the Apple Books run
finishes with `success = true` and `items_synced = 0`, the persisted manifest
is unchanged, the platform status becomes `Success` (not `Idle`), and
`last_sync` is still stamped with `now`. -/
theorem C8_empty_diff_is_success (pushOk : Nat → Bool) (s : SyncState)
    (persisted : Manifest) (books : List Book) (annots : List String)
    (now : String)
    (h : books.filter (bookChanged persisted annots) = []) :
    (run_apple_books_sync pushOk s persisted books annots now).2.2.success =
      true ∧
    (run_apple_books_sync pushOk s persisted books annots now).2.2.items_synced
      = 0 ∧
    statusOf (run_apple_books_sync pushOk s persisted books annots now).1
      .AppleBooks = .Success ∧
    statusOf (run_apple_books_sync pushOk s persisted books annots now).1
      .AppleBooks ≠ .Idle ∧
    lastSyncOf (run_apple_books_sync pushOk s persisted books annots now).1
      .AppleBooks = some now ∧
    (run_apple_books_sync pushOk s persisted books annots now).2.1 =
      persisted := by
  have hrun : (apple_books_run_sync pushOk persisted books annots).2 =
      .ok (0, persisted) := by
    by_cases hb : books.isEmpty
    · simp [apple_books_run_sync, hb]
    · simp [apple_books_run_sync, hb, h]
  have hcall : run_apple_books_sync pushOk s persisted books annots now =
      (update_platform_success
        (update_platform_status s .AppleBooks .Syncing) .AppleBooks 0 now,
       persisted,
       { platform := .AppleBooks, success := true,
         message := "No changes detected", items_synced := 0 }) := by
    simp [run_apple_books_sync, hrun]
  rw [hcall]
  simp [statusOf, lastSyncOf, update_platform_success, update_platform_status]

/-- Witness for C8: a book whose fingerprint matches its manifest entry
exactly is not reported as changed, and the run records `Success`. -/
theorem C8_empty_diff_is_success_witness :
    ([⟨"a", 1/2⟩] : List Book).filter
        (bookChanged [("a", ⟨0, 1/2⟩)] []) = [] ∧
    statusOf (run_apple_books_sync (fun _ => true) SyncState.init
        [("a", ⟨0, 1/2⟩)] [⟨"a", 1/2⟩] [] "2025-01-01T00:00:00Z").1
      .AppleBooks = .Success :=
  ⟨by norm_num [List.filter, bookChanged, annotCount, List.lookup],
   (C8_empty_diff_is_success (fun _ => true) SyncState.init
      [("a", ⟨0, 1/2⟩)] [⟨"a", 1/2⟩] [] "2025-01-01T00:00:00Z"
      (by norm_num [List.filter, bookChanged, annotCount, List.lookup])).2.2.1⟩

/-- Helper: the attempted-batch trace of `pushBatches` is a prefix of the
batch list, and on an error it consists of the batches up to and including
the first failing one — every earlier attempted push succeeded and no later
batch was attempted. -/
theorem pushBatches_attempted_spec (pushOk : Nat → Bool)
    (annots : List String) (chunks : List (List Book)) :
    ∀ (i : Nat) (m : Manifest) (t : Nat),
      (pushBatches pushOk annots chunks i m t).1 <+: chunks ∧
      (∀ e, (pushBatches pushOk annots chunks i m t).2 = .error e →
        ∃ k, (pushBatches pushOk annots chunks i m t).1.length = k + 1 ∧
          pushOk (i + k) = false ∧ ∀ j, j < k → pushOk (i + j) = true) := by
  induction chunks with
  | nil =>
      intro i m t
      refine ⟨⟨[], rfl⟩, fun e he => ?_⟩
      simp [pushBatches] at he
  | cons c rest ih =>
      intro i m t
      by_cases hp : pushOk i
      · have hdef : pushBatches pushOk annots (c :: rest) i m t =
            (c :: (pushBatches pushOk annots rest (i + 1)
                (updateManifestForChunk annots m c) (t + c.length)).1,
             (pushBatches pushOk annots rest (i + 1)
                (updateManifestForChunk annots m c) (t + c.length)).2) := by
          simp [pushBatches, hp]
        rw [hdef]
        obtain ⟨hpre, herr⟩ :=
          ih (i + 1) (updateManifestForChunk annots m c) (t + c.length)
        obtain ⟨tl, htl⟩ := hpre
        refine ⟨⟨tl, by simp [htl]⟩, fun e he => ?_⟩
        obtain ⟨k, hlen, hfail, hprev⟩ := herr e he
        refine ⟨k + 1, by simp [hlen], ?_, ?_⟩
        · have hik : i + (k + 1) = (i + 1) + k := by omega
          rw [hik]; exact hfail
        · intro j hj
          cases j with
          | zero => simpa using hp
          | succ j' =>
              have hij : i + (j' + 1) = (i + 1) + j' := by omega
              rw [hij]; exact hprev j' (by omega)
      · have hdef : pushBatches pushOk annots (c :: rest) i m t =
            ([c], .error "ebook sync batch failed") := by
          simp [pushBatches, hp]
        rw [hdef]
        exact ⟨⟨rest, rfl⟩,
          fun e he => ⟨0, rfl, by simpa using hp, by omega⟩⟩

/-- C1 amended: when the push of some batch fails, the remaining batches are
never attempted (the attempted trace is a prefix of the batch list ending at
the first failing batch), the run returns a failed outcome, the platform
status becomes `Error` with the error text recorded — but the persisted
ChangeManifest is left entirely unchanged: the in-memory entries for the
batches pushed before the failure are discarded, not persisted. -/
theorem C1_push_failure_aborts_and_discards (pushOk : Nat → Bool)
    (s : SyncState) (persisted : Manifest) (books : List Book)
    (annots : List String) (now : String) (att : List (List Book))
    (e : String)
    (h : apple_books_run_sync pushOk persisted books annots =
      (att, .error e)) :
    (run_apple_books_sync pushOk s persisted books annots now).2.1 =
      persisted ∧
    statusOf (run_apple_books_sync pushOk s persisted books annots now).1
      .AppleBooks = .Error ∧
    errorOf (run_apple_books_sync pushOk s persisted books annots now).1
      .AppleBooks = some e ∧
    (run_apple_books_sync pushOk s persisted books annots now).2.2.success =
      false ∧
    (run_apple_books_sync pushOk s persisted books annots now).2.2.items_synced
      = 0 ∧
    att <+: chunksOf APPLE_BOOKS_BATCH_SIZE
      (books.filter (bookChanged persisted annots)) ∧
    ∃ k, att.length = k + 1 ∧ pushOk k = false ∧
      ∀ j, j < k → pushOk j = true := by
  have h2 : (apple_books_run_sync pushOk persisted books annots).2 =
      .error e := by rw [h]
  have hcall : run_apple_books_sync pushOk s persisted books annots now =
      (update_platform_error (update_platform_status s .AppleBooks .Syncing)
        .AppleBooks e,
       persisted,
       { platform := .AppleBooks, success := false, message := e,
         items_synced := 0 }) := by
    simp [run_apple_books_sync, h2]
  have hpb : pushBatches pushOk annots
      (chunksOf APPLE_BOOKS_BATCH_SIZE
        (books.filter (bookChanged persisted annots))) 0 persisted 0 =
      (att, .error e) := by
    by_cases hb : books.isEmpty
    · have hx := h
      simp [apple_books_run_sync, hb] at hx
    · by_cases hc : (books.filter (bookChanged persisted annots)).isEmpty
      · have hx := h
        simp [apple_books_run_sync, hb, hc] at hx
      · have hx := h
        simpa [apple_books_run_sync, hb, hc] using hx
  obtain ⟨hpre, herr⟩ :=
    pushBatches_attempted_spec pushOk annots
      (chunksOf APPLE_BOOKS_BATCH_SIZE
        (books.filter (bookChanged persisted annots))) 0 persisted 0
  rw [hpb] at hpre herr
  obtain ⟨k, hlen, hfail, hprev⟩ := herr e rfl
  rw [hcall]
  refine ⟨rfl, rfl, rfl, rfl, rfl, hpre,
    ⟨k, by simpa using hlen, by simpa using hfail, fun j hj => ?_⟩⟩
  simpa using hprev j hj

/-- Concrete C1 scenario: 51 books, none in the manifest, so change detection
yields 51 changed books split into two batches (50 + 1). -/
def booksC1 : List Book := List.replicate 51 ⟨"a", 0⟩

/-- Push oracle for the C1 scenario: batch 0 succeeds, batch 1 fails. -/
def pushOkC1 : Nat → Bool := fun i => i == 0

/-- C1 counterexample: with 51 changed books (two batches of 50 and 1),
batch 0 is fully pushed and batch 1 fails. The claim says the persisted
ChangeManifest then reflects the 50 books of batch 1..k-1 (their entries
updated). In fact the run returns `Err`, the caller never saves the updated
manifest, and the persisted manifest is still the original empty one — the
entry for the pushed books is absent (`lookup = none`). Only the
status-becomes-`Error` half of the claim holds. -/
theorem C1_counterexample :
    (apple_books_run_sync pushOkC1 [] booksC1 []).1.map List.length =
      [50, 1] ∧
    (apple_books_run_sync pushOkC1 [] booksC1 []).2 =
      .error "ebook sync batch failed" ∧
    (run_apple_books_sync pushOkC1 SyncState.init [] booksC1 [] "now").2.1 =
      ([] : Manifest) ∧
    List.lookup "a"
      (run_apple_books_sync pushOkC1 SyncState.init [] booksC1 [] "now").2.1 =
      none ∧
    statusOf
      (run_apple_books_sync pushOkC1 SyncState.init [] booksC1 [] "now").1
      .AppleBooks = .Error :=
  ⟨rfl, rfl, rfl, rfl, rfl⟩

/-- Witness for C1's amended theorem at the concrete two-batch scenario. -/
theorem C1_push_failure_aborts_and_discards_witness :
    apple_books_run_sync pushOkC1 [] booksC1 [] =
      ([List.replicate 50 ⟨"a", 0⟩, [⟨"a", 0⟩]],
       .error "ebook sync batch failed") ∧
    (run_apple_books_sync pushOkC1 SyncState.init [] booksC1 [] "now").2.1 =
      ([] : Manifest) := by
  have h : apple_books_run_sync pushOkC1 [] booksC1 [] =
      ([List.replicate 50 ⟨"a", 0⟩, [⟨"a", 0⟩]],
       .error "ebook sync batch failed") := by rfl
  exact ⟨h,
    (C1_push_failure_aborts_and_discards pushOkC1 SyncState.init [] booksC1
      [] "now" [List.replicate 50 ⟨"a", 0⟩, [⟨"a", 0⟩]]
      "ebook sync batch failed" h).1⟩
